import Mathlib

/-!
Shallow embedding of `src/Main.py`: an asynchronous YouTube-Shorts generation
service.  The program keeps an in-memory job store `jobs : job_id → record`
(`status`, `message`, `download_url`, `script`), a background pipeline worker
`generation_worker` (text generation → video generation → file save), and the
Flask route handlers `generate` (POST /generate) and `status` (GET /status).

Python dynamic values appearing in request bodies and collaborator responses
are modelled by `PyValue`; Python exceptions by `Except PyErr`.  The two
external collaborators, the `uuid4` file-name source and the file write are
modelled by the oracle record `PipelineEnv`, so a worker run is a pure
function of the oracle outcomes.  The worker's sequence of mutations of the
shared record `jobs[job_id]` is kept as an explicit list of states
(`WorkerRun.states`): these are exactly the snapshots a concurrent
`GET /status` reader can observe.
-/

/-- Model of a dynamically typed Python value (the shapes the program
inspects: strings, ints, lists, dicts). -/
inductive PyValue where
  | str : String → PyValue
  | int : Int → PyValue
  | list : List PyValue → PyValue
  | dict : List (String × PyValue) → PyValue

/-- Model of a raised Python exception. -/
inductive PyErr where
  | valueError : String → PyErr
  | typeError : String → PyErr
  | attributeError : String → PyErr
  | keyError : String → PyErr
deriving DecidableEq, Repr

/-- Python type name, for error messages. -/
def pyTypeName : PyValue → String
  | .str _ => "str"
  | .int _ => "int"
  | .list _ => "list"
  | .dict _ => "dict"

mutual
/-- Model of Python `repr()` on our value fragment (escaping elided). -/
def pyRepr : PyValue → String
  | .str s => "\x27" ++ s ++ "\x27"
  | .int n => toString n
  | .list xs => "[" ++ String.intercalate ", " (pyReprList xs) ++ "]"
  | .dict kvs => "\x7b" ++ String.intercalate ", " (pyReprKVs kvs) ++ "\x7d"

def pyReprList : List PyValue → List String
  | [] => []
  | x :: xs => pyRepr x :: pyReprList xs

def pyReprKVs : List (String × PyValue) → List String
  | [] => []
  | (k, v) :: kvs => ("\x27" ++ k ++ "\x27: " ++ pyRepr v) :: pyReprKVs kvs
end

/-- Model of Python `str()`: identity on strings, `repr`-style otherwise. -/
def pyStr : PyValue → String
  | .str s => s
  | v => pyRepr v

/-- Is the value a Python `str` (`isinstance(v, str)`)? -/
def isStr : PyValue → Bool
  | .str _ => true
  | _ => false

/-- Python `"k" in d` on a dict. -/
def pyDictHas (d : List (String × PyValue)) (k : String) : Bool :=
  (d.lookup k).isSome

/-- Python `d[k]` on a dict: raises `KeyError` when absent. -/
def pyDictGetItem (d : List (String × PyValue)) (k : String) :
    Except PyErr PyValue :=
  match d.lookup k with
  | some v => .ok v
  | none => .error (.keyError k)

/-- Python `d.get(k, default)` on a dict: never raises. -/
def pyDictGet (d : List (String × PyValue)) (k : String) (default : PyValue) :
    PyValue :=
  (d.lookup k).getD default

/-- Python `xs[i]` on a list: raises `IndexError` when out of range. -/
def pyListGetItem (xs : List PyValue) (i : Nat) : Except PyErr PyValue :=
  match xs.get? i with
  | some v => .ok v
  | none => .error (.valueError "list index out of range")

/-- The `try:` body of `safe_extract_text` (Main.py lines 23-32), with the
raising subscript operations made explicit.  Note that the two
`generated_text` branches return the stored value unconverted, whatever its
type. -/
def safe_extract_text_body (resp : PyValue) : Except PyErr PyValue :=
  match resp with
  | .str s => .ok (.str s)
  | .dict d =>
      if pyDictHas d "generated_text" then
        pyDictGetItem d "generated_text"
      else
        .ok (.str (pyStr resp))
  | .list xs =>
      if xs.length > 0 then
        match pyListGetItem xs 0 with
        | .error e => .error e
        | .ok x =>
            match x with
            | .dict d => .ok (pyDictGet d "generated_text" (.str (pyStr x)))
            | _ => .ok (.str (pyStr x))
      else
        .ok (.str (pyStr resp))
  | _ => .ok (.str (pyStr resp))

/-- Function `safe_extract_text` (Main.py lines 21-34): the `except` clause
returns `str(resp)`. -/
def safe_extract_text (resp : PyValue) : PyValue :=
  match safe_extract_text_body resp with
  | .ok v => v
  | .error _ => .str (pyStr resp)

/-- The four job statuses (Main.py line 19). -/
inductive Status where
  | queued
  | processing
  | done
  | error
deriving DecidableEq, Repr

/-- One entry of the `jobs` store: the dict
`{"status": ..., "message": ..., "download_url": ..., "script": ...}`.
`script` is whatever `safe_extract_text` returned (line 46 stores it into the
dict unconverted), hence a `PyValue`. -/
structure JobRecord where
  status : Status
  message : String
  download_url : String
  script : PyValue

/-- The record inserted at submission (Main.py line 82). -/
def mkJob : JobRecord :=
  { status := .queued, message := "", download_url := "", script := .str "" }

/-- The in-memory job store `jobs` (Main.py line 19), as an association list;
assignment conses at the front, so `List.lookup` gives dict semantics. -/
def JobStore : Type := List (String × JobRecord)

/-- Lookup `jobs.get(job_id)` / `jobs[job_id]`. -/
def jobsGet (store : JobStore) (job_id : String) : Option JobRecord :=
  List.lookup job_id store

/-- Assignment `jobs[job_id] = rec`. -/
def jobsSet (store : JobStore) (job_id : String) (rec : JobRecord) : JobStore :=
  (job_id, rec) :: store

/-- Python `s.rstrip("/")`: removes every trailing slash. -/
def rstripSlashes (s : String) : String :=
  String.mk ((s.data.reverse.dropWhile (fun c => c = '/')).reverse)

/-- The text-generation prompt (Main.py lines 40-43), a pure function of
`video_length` and `topic`. -/
def mkPrompt (topic : String) (video_length : Int) : String :=
  "Generate a concise, engaging, viral YouTube Shorts script (max " ++
    toString video_length ++ " seconds) on the topic: \x27" ++ topic ++
    "\x27.\n" ++
  "Make it faceless (no human faces). Include a strong hook, 2-3 clear points, short visual cues for each line (e.g., \x27close-up of object\x27, \x27text overlay\x27, \x27stock nature b-roll\x27), and a call to action. Format for vertical 9:16 short."

/-- The video prompt (Main.py lines 49-51); `{script}` and `{ratio}` are
rendered with `str()`. -/
def mkVideoPrompt (script : PyValue) (ratio : PyValue) (video_length : Int) :
    String :=
  pyStr script ++ "\n\nVideo instructions: vertical " ++ pyStr ratio ++
    ", no faces, fast cuts, text overlays, length ~" ++
    toString video_length ++ "s. Keep visuals high-energy and suitable for a YouTube Short."

/-- Oracle for the effectful steps of one worker run: the two collaborators
(`hf_text.text_generation`, `hf_video.text_to_video`), the `uuid4().hex` used
for the artifact file name, and the file write; a `.error` value is the
message of the exception that call raises. -/
structure PipelineEnv where
  textGen : String → Except String PyValue
  videoGen : String → Except String (List Nat)
  uuidHex : String
  save : String → List Nat → Except String Unit

/-- The artifact file name built at Main.py line 56. -/
def workerFilename (env : PipelineEnv) : String :=
  "short_" ++ env.uuidHex ++ ".mp4"

/-- Result of one `generation_worker` run on its job's record:
`states` lists the record after each mutation of `jobs[job_id]`, in program
order (these are the snapshots a concurrent status reader can see);
the counters say how often each collaborator / the file write was invoked. -/
structure WorkerRun where
  states : List JobRecord
  textCalls : Nat
  videoCalls : Nat
  saveCalls : Nat

/-- Worker `generation_worker` (Main.py lines 36-68) run on the record `job` stored
under its `job_id`.  Mutation order is exactly the source's: `status :=
processing` (37); on success `script` (46), then `status := done` (64), then
`download_url` (65); on the first failing stage `status := error` (67), then
`message` (68). -/
def generation_worker (env : PipelineEnv) (job : JobRecord) (topic : String)
    (video_length : Int) (ratio : PyValue) (base_url : String) : WorkerRun :=
  let s1 : JobRecord := { job with status := .processing }
  let prompt := mkPrompt topic video_length
  match env.textGen prompt with
  | .error e =>
      let e1 : JobRecord := { s1 with status := .error }
      ⟨[s1, e1, { e1 with message := e }], 1, 0, 0⟩
  | .ok text_resp =>
      let script := safe_extract_text text_resp
      let s2 : JobRecord := { s1 with script := script }
      let video_prompt := mkVideoPrompt script ratio video_length
      match env.videoGen video_prompt with
      | .error e =>
          let e1 : JobRecord := { s2 with status := .error }
          ⟨[s1, s2, e1, { e1 with message := e }], 1, 1, 0⟩
      | .ok video_bytes =>
          let filename := workerFilename env
          match env.save filename video_bytes with
          | .error e =>
              let e1 : JobRecord := { s2 with status := .error }
              ⟨[s1, s2, e1, { e1 with message := e }], 1, 1, 1⟩
          | .ok _ =>
              let download_url :=
                rstripSlashes base_url ++ "/download/" ++ filename
              let s3 : JobRecord := { s2 with status := .done }
              ⟨[s1, s2, s3, { s3 with download_url := download_url }], 1, 1, 1⟩

/-- The record left in the store after the worker finishes. -/
def workerFinal (env : PipelineEnv) (job : JobRecord) (topic : String)
    (video_length : Int) (ratio : PyValue) (base_url : String) : JobRecord :=
  (generation_worker env job topic video_length ratio base_url).states.getLastD job

/-- The ASCII whitespace characters Python's `str.strip` removes. -/
def pyWs (c : Char) : Bool :=
  c = ' ' || c = '\t' || c = '\n' || c = '\r' || c = '\x0b' || c = '\x0c'

/-- Python `s.strip()` (ASCII whitespace fragment). -/
def pyStripStr (s : String) : String :=
  String.mk (((s.data.dropWhile pyWs).reverse.dropWhile pyWs).reverse)

/-- Python `v.strip()` where `v` came from the request body: a non-string
has no `.strip` attribute. -/
def pyStrip : PyValue → Except PyErr String
  | .str s => .ok (pyStripStr s)
  | v => .error (.attributeError
      ("\x27" ++ pyTypeName v ++ "\x27 object has no attribute \x27strip\x27"))

/-- Parse a string the way Python `int()` does: surrounding whitespace, an
optional sign, then at least one digit. -/
def parseIntPy (s : String) : Option Int :=
  let t := ((s.data.dropWhile pyWs).reverse.dropWhile pyWs).reverse
  let core :=
    match t with
    | '-' :: rest => rest
    | '+' :: rest => rest
    | _ => t
  let neg :=
    match t with
    | '-' :: _ => true
    | _ => false
  if core.length > 0 && core.all Char.isDigit then
    let n : Nat := core.foldl (fun acc c => acc * 10 + (c.toNat - 48)) 0
    some (if neg then -(n : Int) else (n : Int))
  else
    none

/-- Python `int(v)`: ints pass through unvalidated; strings are parsed;
other shapes raise `TypeError`. -/
def pyInt : PyValue → Except PyErr Int
  | .int n => .ok n
  | .str s =>
      match parseIntPy s with
      | some n => .ok n
      | none => .error (.valueError
          ("invalid literal for int() with base 10: \x27" ++ s ++ "\x27"))
  | v => .error (.typeError
      ("int() argument must be a string, a bytes-like object or a real number, not \x27"
        ++ pyTypeName v ++ "\x27"))

/-- The parsed JSON body of a POST /generate request: the three keys the
handler reads (`none` = key absent). -/
structure ReqBody where
  topic : Option PyValue
  video_length : Option PyValue
  ratio : Option PyValue

/-- The arguments `generate` hands to the background thread
(Main.py line 87). -/
structure WorkerCall where
  job_id : String
  topic : String
  video_length : Int
  ratio : PyValue
  base_url : String

/-- Outcome of the `generate` handler: the job store after the request, the
background worker dispatched (if any), and either a raised exception or an
HTTP response `(code, json body)`. -/
structure GenOut where
  store : JobStore
  worker : Option WorkerCall
  response : Except PyErr (Nat × PyValue)

/-- The 400 body `{"status": "error", "message": "Missing topic"}`
(Main.py line 78). -/
def missingTopicJson : PyValue :=
  .dict [("status", .str "error"), ("message", .str "Missing topic")]

/-- The 202 body of an accepted submission (Main.py lines 91-95). -/
def submittedJson (job_id base_url : String) : PyValue :=
  .dict [("status", .str "submitted"), ("job_id", .str job_id),
         ("status_url", .str (base_url ++ "/status/" ++ job_id))]

/-- The `generate` handler (Main.py lines 70-95).  `fresh_id` stands for
`uuid.uuid4().hex`, `url_root` for `request.url_root`.  Statement order
matches the source: `topic` is stripped (73) and `video_length` converted
(74) before the `if not topic` check (77); an exception from either leaves
the store untouched and dispatches no worker. -/
def generate (body : ReqBody) (fresh_id : String) (url_root : String)
    (store : JobStore) : GenOut :=
  match pyStrip (body.topic.getD (.str "")) with
  | .error e => ⟨store, none, .error e⟩
  | .ok topic =>
    match pyInt (body.video_length.getD (.int 60)) with
    | .error e => ⟨store, none, .error e⟩
    | .ok video_length =>
      let ratio := body.ratio.getD (.str "9:16")
      if topic = "" then
        ⟨store, none, .ok (400, missingTopicJson)⟩
      else
        let job_id := fresh_id
        let store2 := jobsSet store job_id mkJob
        let base_url := rstripSlashes url_root
        ⟨store2, some ⟨job_id, topic, video_length, ratio, base_url⟩,
         .ok (202, submittedJson job_id base_url)⟩

/-- The store's status strings (Main.py line 19). -/
def statusStr : Status → String
  | .queued => "queued"
  | .processing => "processing"
  | .done => "done"
  | .error => "error"

/-- Response `jsonify(j)` for a job record: its four fields, in the order of the dict
literal at Main.py line 82. -/
def jobJson (j : JobRecord) : PyValue :=
  .dict [("status", .str (statusStr j.status)), ("message", .str j.message),
         ("download_url", .str j.download_url), ("script", j.script)]

/-- The 404 body `{"status": "error", "message": "job_id not found"}`
(Main.py line 101). -/
def notFoundJson : PyValue :=
  .dict [("status", .str "error"), ("message", .str "job_id not found")]

/-- The `status` handler (Main.py lines 97-102): a pure read of the store —
it takes no store to return because it performs no write.  A stored record
is a four-key dict, never empty, so the source's `if not j` truthiness test
coincides with `j is None`, i.e. with a failed lookup. -/
def status_route (store : JobStore) (job_id : String) : Nat × PyValue :=
  match jobsGet store job_id with
  | none => (404, notFoundJson)
  | some j => (200, jobJson j)

/-- The allowed evolution of the `status` field between two consecutive
snapshots: unchanged, or one edge of the chain
`queued → processing → {done, error}`. -/
def statusStep (a b : Status) : Prop :=
  a = b ∨ (a = .queued ∧ b = .processing) ∨
    (a = .processing ∧ (b = .done ∨ b = .error))

instance (a b : Status) : Decidable (statusStep a b) :=
  inferInstanceAs (Decidable (_ ∨ _))

/-- Which dict value the two `generated_text` branches of
`safe_extract_text` would return: the value stored under `"generated_text"`
when the input is a dict with that key, or a list headed by such a dict. -/
def genLookup : PyValue → Option PyValue
  | .dict d => d.lookup "generated_text"
  | .list (x :: _) =>
      match x with
      | .dict d => d.lookup "generated_text"
      | _ => none
  | _ => none

/-- An oracle on which every pipeline stage succeeds. -/
def envAllOk : PipelineEnv :=
  { textGen := fun _ => .ok (.str "SCRIPT"), videoGen := fun _ => .ok [7],
    uuidHex := "abc123", save := fun _ _ => .ok () }

/-- An oracle on which the text-generation collaborator raises `boom`. -/
def envTextFail : PipelineEnv :=
  { textGen := fun _ => .error "boom", videoGen := fun _ => .ok [],
    uuidHex := "u0", save := fun _ _ => .ok () }

theorem mid_append_ne_empty (a b c : String) (hb : b.length ≠ 0) :
    a ++ b ++ c ≠ "" := by
  intro h
  have hl := congrArg String.length h
  rw [String.length_append, String.length_append] at hl
  simp at hl
  omega

/-- Claim C1: along every worker execution the stored `status` moves only
along `queued → processing → (done | error)`: the worker's first store write
sets `processing`, every later snapshot-to-snapshot change is one chain edge
(in particular no snapshot ever leaves `done` or `error`, and no record moves
from `queued` directly to `error`); and the `generate` handler, given a fresh
identifier, leaves every existing record (hence every terminal record)
untouched.  The `status` handler writes nothing by its very type. -/
theorem c1_status_monotonic :
    (∀ (env : PipelineEnv) (topic : String) (vl : Int) (ratio : PyValue)
       (burl : String),
      ((generation_worker env mkJob topic vl ratio burl).states.map
          JobRecord.status).head? = some .processing ∧
      List.Chain' statusStep
        ((mkJob :: (generation_worker env mkJob topic vl ratio burl).states).map
          JobRecord.status)) ∧
    (∀ (body : ReqBody) (fid url : String) (store : JobStore),
      jobsGet store fid = none →
      ∀ (k : String) (r : JobRecord), jobsGet store k = some r →
        jobsGet (generate body fid url store).store k = some r) := by
  constructor
  · intro env topic vl ratio burl
    unfold generation_worker
    rcases h1 : env.textGen (mkPrompt topic vl) with e | r
    · simp [h1, statusStep, List.chain'_cons, mkJob]
    · simp only [h1]
      rcases h2 : env.videoGen (mkVideoPrompt (safe_extract_text r) ratio vl) with e | bs
      · simp [h2, statusStep, List.chain'_cons, mkJob]
      · simp only [h2]
        rcases h3 : env.save (workerFilename env) bs with e | u
        · simp [h3, statusStep, List.chain'_cons, mkJob]
        · simp [h3, statusStep, List.chain'_cons, mkJob]
  · intro body fid url store hfresh k r hk
    unfold generate
    rcases h1 : pyStrip (body.topic.getD (.str "")) with e | topic
    · simpa using hk
    · simp only []
      rcases h2 : pyInt (body.video_length.getD (.int 60)) with e | vl
      · simpa using hk
      · by_cases ht : topic = ""
        · simp [ht, hk]
        · simp only [ht, if_neg ht]
          have hne : k ≠ fid := by
            intro hkf
            rw [hkf, hfresh] at hk
            exact Option.noConfusion hk
          have hbeq : (k == fid) = false := beq_eq_false_iff_ne.mpr hne
          simpa [jobsGet, jobsSet, List.lookup, hbeq] using hk

theorem c1_status_monotonic_witness :
    jobsGet (generate ⟨some (.str "cats"), none, none⟩ "id1" "http://h/"
        [("old", mkJob)]).store "old" = some mkJob :=
  c1_status_monotonic.2 ⟨some (.str "cats"), none, none⟩ "id1" "http://h/"
    [("old", mkJob)] rfl "old" mkJob rfl

/-- Claim C2 counterexample: on a run in which all three stages succeed, the
third reader-visible snapshot — the store state between the `status := done`
write (Main.py line 64) and the `download_url` write (line 65) — has
`status = done` with an empty `download_url`, refuting the claim that no
reachable state has `status = done` and an empty `download_url`. -/
theorem c2_done_before_url_counterexample :
    ((generation_worker envAllOk mkJob "cats" 30 (.str "9:16")
        "http://h").states.getD 2 mkJob).status = Status.done ∧
    ((generation_worker envAllOk mkJob "cats" 30 (.str "9:16")
        "http://h").states.getD 2 mkJob).download_url = "" ∧
    2 < (generation_worker envAllOk mkJob "cats" 30 (.str "9:16")
        "http://h").states.length :=
  ⟨rfl, rfl, by decide⟩

/-- Claim C2 (amended): in the record created at submission and in the record
left after the worker terminates — every quiescent state — `download_url` is
non-empty iff `status = done`; only the single intermediate snapshot between
the `done` write and the `download_url` write violates the equivalence. -/
theorem c2_terminal_url_iff_done :
    (mkJob.download_url ≠ "" ↔ mkJob.status = .done) ∧
    ∀ (env : PipelineEnv) (topic : String) (vl : Int) (ratio : PyValue)
      (burl : String),
      ((workerFinal env mkJob topic vl ratio burl).download_url ≠ "" ↔
       (workerFinal env mkJob topic vl ratio burl).status = .done) := by
  constructor
  · simp [mkJob]
  · intro env topic vl ratio burl
    unfold workerFinal generation_worker
    rcases h1 : env.textGen (mkPrompt topic vl) with e | r
    · simp [h1, List.getLastD, mkJob]
    · simp only [h1]
      rcases h2 : env.videoGen (mkVideoPrompt (safe_extract_text r) ratio vl) with e | bs
      · simp [h2, List.getLastD, mkJob]
      · simp only [h2]
        rcases h3 : env.save (workerFilename env) bs with e | u
        · simp [h3, List.getLastD, mkJob]
        · simp only [h3]
          simp only [List.getLastD]
          constructor
          · intro _
            rfl
          · intro _
            exact mid_append_ne_empty _ _ _ (by decide)

/-- Claim C3 counterexample: on a run whose text-generation stage raises, the
second reader-visible snapshot — the store state between the
`status := error` write (Main.py line 67) and the `message` write (line 68) —
has `status = error` with an empty `message`, refuting the claim that in
every reachable state `message` is non-empty iff `status = error`. -/
theorem c3_error_before_message_counterexample :
    ((generation_worker envTextFail mkJob "t" 60 (.str "9:16")
        "b").states.getD 1 mkJob).status = Status.error ∧
    ((generation_worker envTextFail mkJob "t" 60 (.str "9:16")
        "b").states.getD 1 mkJob).message = "" ∧
    1 < (generation_worker envTextFail mkJob "t" 60 (.str "9:16")
        "b").states.length :=
  ⟨rfl, rfl, by decide⟩

/-- Claim C3 (amended): assuming every exception raised by the three stages
carries a non-empty message (as the claim assumes), the record left after the
worker terminates has a non-empty `message` iff its `status` is `error`; the
equivalence fails only at the single intermediate snapshot between the
`error` write and the `message` write. -/
theorem c3_final_message_iff_error (env : PipelineEnv) (topic : String)
    (vl : Int) (ratio : PyValue) (burl : String)
    (htext : ∀ p e, env.textGen p = .error e → e ≠ "")
    (hvideo : ∀ p e, env.videoGen p = .error e → e ≠ "")
    (hsave : ∀ f b e, env.save f b = .error e → e ≠ "") :
    (workerFinal env mkJob topic vl ratio burl).message ≠ "" ↔
      (workerFinal env mkJob topic vl ratio burl).status = .error := by
  unfold workerFinal generation_worker
  rcases h1 : env.textGen (mkPrompt topic vl) with e | r
  · simp [h1, List.getLastD, htext _ _ h1]
  · simp only [h1]
    rcases h2 : env.videoGen (mkVideoPrompt (safe_extract_text r) ratio vl) with e | bs
    · simp [h2, List.getLastD, hvideo _ _ h2]
    · simp only [h2]
      rcases h3 : env.save (workerFilename env) bs with e | u
      · simp [h3, List.getLastD, hsave _ _ _ h3]
      · simp [h3, List.getLastD, mkJob]

theorem c3_final_message_iff_error_witness :
    (workerFinal envTextFail mkJob "t" 60 (.str "9:16") "b").message ≠ "" ↔
      (workerFinal envTextFail mkJob "t" 60 (.str "9:16") "b").status = .error :=
  c3_final_message_iff_error envTextFail "t" 60 (.str "9:16") "b"
    (by intro p e h; injection h with h2; subst h2; decide)
    (by intro p e h; exact Except.noConfusion h)
    (by intro f b e h; exact Except.noConfusion h)

/-- Claim C4: when the text-generation collaborator raises with message `e`,
the worker leaves the job in `status = error` with `message = e`, the
`script` and `download_url` fields still empty, and neither the
media-generation collaborator nor the file write is ever invoked (their call
counts stay zero). -/
theorem c4_textgen_failure_stops_pipeline (env : PipelineEnv) (topic : String)
    (vl : Int) (ratio : PyValue) (burl : String) (e : String)
    (h : env.textGen (mkPrompt topic vl) = .error e) :
    (workerFinal env mkJob topic vl ratio burl).status = .error ∧
    (workerFinal env mkJob topic vl ratio burl).message = e ∧
    (workerFinal env mkJob topic vl ratio burl).script = .str "" ∧
    (workerFinal env mkJob topic vl ratio burl).download_url = "" ∧
    (generation_worker env mkJob topic vl ratio burl).videoCalls = 0 ∧
    (generation_worker env mkJob topic vl ratio burl).saveCalls = 0 := by
  unfold workerFinal generation_worker
  simp [h, List.getLastD, mkJob]

theorem c4_textgen_failure_stops_pipeline_witness :
    (workerFinal envTextFail mkJob "t" 60 (.str "9:16") "b").status = .error ∧
    (workerFinal envTextFail mkJob "t" 60 (.str "9:16") "b").message = "boom" ∧
    (workerFinal envTextFail mkJob "t" 60 (.str "9:16") "b").script = .str "" ∧
    (workerFinal envTextFail mkJob "t" 60 (.str "9:16") "b").download_url = "" ∧
    (generation_worker envTextFail mkJob "t" 60 (.str "9:16") "b").videoCalls = 0 ∧
    (generation_worker envTextFail mkJob "t" 60 (.str "9:16") "b").saveCalls = 0 :=
  c4_textgen_failure_stops_pipeline envTextFail "t" 60 (.str "9:16") "b" "boom" rfl

/-- Claim C5 counterexample: a request whose topic trims to the empty string
but whose `video_length` is the non-numeric string `abc` does not get the
400 `Missing topic` response — `int()` raises `ValueError` first (Main.py
line 74 precedes the topic check at line 77). -/
theorem c5_missing_topic_counterexample :
    pyStrip ((⟨some (.str " "), some (.str "abc"), none⟩ : ReqBody).topic.getD
        (.str "")) = .ok "" ∧
    (generate ⟨some (.str " "), some (.str "abc"), none⟩ "id1" "http://h/"
        []).response =
      .error (.valueError "invalid literal for int() with base 10: \x27abc\x27") ∧
    (generate ⟨some (.str " "), some (.str "abc"), none⟩ "id1" "http://h/"
        []).response ≠
      .ok (400, .dict [("status", .str "error"),
                       ("message", .str "Missing topic")]) := by
  refine ⟨rfl, rfl, ?_⟩
  intro h
  rw [show (generate ⟨some (.str " "), some (.str "abc"), none⟩ "id1"
      "http://h/" []).response =
      .error (.valueError "invalid literal for int() with base 10: \x27abc\x27")
      from rfl] at h
  exact Except.noConfusion h

/-- Claim C5 (amended): for every request whose topic strips to the empty
string and whose `video_length` converts to an integer, the handler returns
HTTP 400 with body `{"status": "error", "message": "Missing topic"}`, the
store is unchanged and no worker is dispatched. -/
theorem c5_missing_topic_400 (body : ReqBody) (fid url : String)
    (store : JobStore) (vl : Int)
    (ht : pyStrip (body.topic.getD (.str "")) = .ok "")
    (hv : pyInt (body.video_length.getD (.int 60)) = .ok vl) :
    generate body fid url store =
      ⟨store, none,
       .ok (400, .dict [("status", .str "error"),
                        ("message", .str "Missing topic")])⟩ := by
  unfold generate
  simp [ht, hv, missingTopicJson]

theorem c5_missing_topic_400_witness :
    generate ⟨some (.str ""), none, none⟩ "id1" "http://h/" [] =
      ⟨[], none,
       .ok (400, .dict [("status", .str "error"),
                        ("message", .str "Missing topic")])⟩ :=
  c5_missing_topic_400 ⟨some (.str ""), none, none⟩ "id1" "http://h/" [] 60 rfl rfl

/-- Claim C6: every accepted submission inserts, before the worker is
dispatched, a record with `status = queued` and `message`, `download_url`
and `script` all empty, under the fresh identifier; the dispatched worker
call carries the parsed arguments; and reading the job through the status
route at that point yields `queued`, never `done` or `error`. -/
theorem c6_submit_inserts_queued (body : ReqBody) (fid url : String)
    (store : JobStore) (t : String) (vl : Int)
    (ht : pyStrip (body.topic.getD (.str "")) = .ok t) (hne : t ≠ "")
    (hv : pyInt (body.video_length.getD (.int 60)) = .ok vl) :
    jobsGet (generate body fid url store).store fid = some mkJob ∧
    mkJob = { status := .queued, message := "", download_url := "",
              script := .str "" } ∧
    (generate body fid url store).worker =
      some ⟨fid, t, vl, body.ratio.getD (.str "9:16"), rstripSlashes url⟩ ∧
    status_route (generate body fid url store).store fid =
      (200, .dict [("status", .str "queued"), ("message", .str ""),
                   ("download_url", .str ""), ("script", .str "")]) := by
  unfold generate
  simp [ht, hv, hne, jobsGet, jobsSet, List.lookup, status_route, jobJson,
        statusStr, mkJob]

theorem c6_submit_inserts_queued_witness :
    jobsGet (generate ⟨some (.str "cats"), none, none⟩ "id1" "http://h/"
        []).store "id1" = some mkJob ∧
    mkJob = { status := .queued, message := "", download_url := "",
              script := .str "" } ∧
    (generate ⟨some (.str "cats"), none, none⟩ "id1" "http://h/" []).worker =
      some ⟨"id1", "cats", 60, .str "9:16", rstripSlashes "http://h/"⟩ ∧
    status_route (generate ⟨some (.str "cats"), none, none⟩ "id1" "http://h/"
        []).store "id1" =
      (200, .dict [("status", .str "queued"), ("message", .str ""),
                   ("download_url", .str ""), ("script", .str "")]) :=
  c6_submit_inserts_queued ⟨some (.str "cats"), none, none⟩ "id1" "http://h/"
    [] "cats" 60 rfl (by decide) rfl

/-- Claim C7: whenever all three stages succeed, the recorded download URL is
the worker's base-URL argument with trailing slashes stripped, then the
literal segment `/download/`, then the artifact file name. -/
theorem c7_download_url_composition (env : PipelineEnv) (topic : String)
    (vl : Int) (ratio : PyValue) (burl : String) (r : PyValue) (bs : List Nat)
    (h1 : env.textGen (mkPrompt topic vl) = .ok r)
    (h2 : env.videoGen (mkVideoPrompt (safe_extract_text r) ratio vl) = .ok bs)
    (h3 : env.save (workerFilename env) bs = .ok ()) :
    (workerFinal env mkJob topic vl ratio burl).download_url =
      rstripSlashes burl ++ "/download/" ++ workerFilename env ∧
    (workerFinal env mkJob topic vl ratio burl).status = .done := by
  unfold workerFinal generation_worker
  simp [h1, h2, h3, List.getLastD]

theorem c7_download_url_composition_witness :
    (workerFinal envAllOk mkJob "cats" 30 (.str "9:16")
        "http://h/").download_url =
      rstripSlashes "http://h/" ++ "/download/" ++ workerFilename envAllOk ∧
    (workerFinal envAllOk mkJob "cats" 30 (.str "9:16") "http://h/").status =
      .done :=
  c7_download_url_composition envAllOk "cats" 30 (.str "9:16") "http://h/"
    (.str "SCRIPT") [7] rfl rfl rfl

/-- Claim C8: the status route returns 404 with body
`{"status": "error", "message": "job_id not found"}` exactly when the
identifier is absent from the store, and otherwise 200 with the record's
four fields; it takes the store only as input, so it cannot modify it. -/
theorem c8_status_route_contract :
    (∀ (store : JobStore) (jid : String), jobsGet store jid = none →
      status_route store jid =
        (404, .dict [("status", .str "error"),
                     ("message", .str "job_id not found")])) ∧
    (∀ (store : JobStore) (jid : String) (j : JobRecord),
      jobsGet store jid = some j →
      status_route store jid =
        (200, .dict [("status", .str (statusStr j.status)),
                     ("message", .str j.message),
                     ("download_url", .str j.download_url),
                     ("script", j.script)])) := by
  constructor
  · intro store jid h
    simp [status_route, h, notFoundJson]
  · intro store jid j h
    simp [status_route, h, jobJson]

theorem c8_status_route_contract_witness :
    status_route [] "x" =
      (404, .dict [("status", .str "error"),
                   ("message", .str "job_id not found")]) ∧
    status_route [("a", mkJob)] "a" =
      (200, .dict [("status", .str (statusStr mkJob.status)),
                   ("message", .str mkJob.message),
                   ("download_url", .str mkJob.download_url),
                   ("script", mkJob.script)]) :=
  ⟨c8_status_route_contract.1 [] "x" rfl,
   c8_status_route_contract.2 [("a", mkJob)] "a" mkJob rfl⟩

/-- Claim C9 counterexample: `safe_extract_text` does not always return a
string — on the dict `{"generated_text": 5}` it returns the stored value
`5`, an int, unconverted. -/
theorem c9_nonstring_counterexample :
    safe_extract_text (.dict [("generated_text", .int 5)]) = .int 5 ∧
    isStr (.int 5) = false :=
  ⟨rfl, rfl⟩

/-- Claim C9 (amended): `safe_extract_text` is total — its `try` body never
raises on any input — and it returns a string for every input except when the
input is a dict carrying `"generated_text"` (or a list headed by such a
dict), in which case it returns the stored value unchanged, string or not. -/
theorem c9_safe_extract_total : ∀ resp : PyValue,
    (safe_extract_text_body resp).isOk = true ∧
    (genLookup resp).elim (isStr (safe_extract_text resp) = true)
      (fun v => safe_extract_text resp = v) := by
  intro resp
  cases resp with
  | str s => exact ⟨rfl, rfl⟩
  | int n => exact ⟨rfl, rfl⟩
  | dict d =>
      cases h : List.lookup "generated_text" d with
      | none =>
          refine ⟨?_, ?_⟩ <;>
            simp [genLookup, h, safe_extract_text, safe_extract_text_body,
                  pyDictHas, Except.isOk, Except.toBool, isStr]
      | some v =>
          refine ⟨?_, ?_⟩ <;>
            simp [genLookup, h, safe_extract_text, safe_extract_text_body,
                  pyDictHas, pyDictGetItem, Except.isOk, Except.toBool]
  | list xs =>
      cases xs with
      | nil => exact ⟨rfl, rfl⟩
      | cons x rest =>
          cases x with
          | str s =>
              refine ⟨?_, ?_⟩ <;>
                simp [genLookup, safe_extract_text, safe_extract_text_body,
                      pyListGetItem, Except.isOk, Except.toBool, isStr]
          | int n =>
              refine ⟨?_, ?_⟩ <;>
                simp [genLookup, safe_extract_text, safe_extract_text_body,
                      pyListGetItem, Except.isOk, Except.toBool, isStr]
          | list ys =>
              refine ⟨?_, ?_⟩ <;>
                simp [genLookup, safe_extract_text, safe_extract_text_body,
                      pyListGetItem, Except.isOk, Except.toBool, isStr]
          | dict d =>
              cases h : List.lookup "generated_text" d with
              | none =>
                  refine ⟨?_, ?_⟩ <;>
                    simp [genLookup, h, safe_extract_text,
                          safe_extract_text_body, pyListGetItem, pyDictGet,
                          Except.isOk, Except.toBool, isStr]
              | some v =>
                  refine ⟨?_, ?_⟩ <;>
                    simp [genLookup, h, safe_extract_text,
                          safe_extract_text_body, pyListGetItem, pyDictGet,
                          Except.isOk, Except.toBool]

/-- Claim C10: a request whose `video_length` does not convert to an integer
makes the handler raise that conversion error before the topic check —
whatever the (successfully stripped) topic is, even the empty one — leaving
the store unchanged and dispatching no worker, so no job identifier is
returned; whereas any integer `video_length`, zero or negative included, is
accepted without validation and a queued job is created and dispatched. -/
theorem c10_video_length_conversion :
    (∀ (body : ReqBody) (fid url : String) (store : JobStore) (t : String)
       (err : PyErr),
      pyStrip (body.topic.getD (.str "")) = .ok t →
      pyInt (body.video_length.getD (.int 60)) = .error err →
      generate body fid url store = ⟨store, none, .error err⟩) ∧
    (∀ (body : ReqBody) (fid url : String) (store : JobStore) (t : String)
       (z : Int),
      pyStrip (body.topic.getD (.str "")) = .ok t → t ≠ "" →
      body.video_length = some (.int z) → z ≤ 0 →
      jobsGet (generate body fid url store).store fid = some mkJob ∧
      (generate body fid url store).response =
        .ok (202, submittedJson fid (rstripSlashes url)) ∧
      (generate body fid url store).worker =
        some ⟨fid, t, z, body.ratio.getD (.str "9:16"), rstripSlashes url⟩) := by
  constructor
  · intro body fid url store t err ht hv
    unfold generate
    simp [ht, hv]
  · intro body fid url store t z ht hne hz hneg
    unfold generate
    simp [ht, hz, pyInt, hne, jobsGet, jobsSet, List.lookup]

theorem c10_video_length_conversion_witness :
    generate ⟨some (.str "x"), some (.str "abc"), none⟩ "id1" "u" [] =
      ⟨[], none,
       .error (.valueError "invalid literal for int() with base 10: \x27abc\x27")⟩ ∧
    (jobsGet (generate ⟨some (.str "x"), some (.int (-5)), none⟩ "id1" "u"
        []).store "id1" = some mkJob ∧
     (generate ⟨some (.str "x"), some (.int (-5)), none⟩ "id1" "u"
        []).response = .ok (202, submittedJson "id1" (rstripSlashes "u")) ∧
     (generate ⟨some (.str "x"), some (.int (-5)), none⟩ "id1" "u" []).worker =
       some ⟨"id1", "x", -5, .str "9:16", rstripSlashes "u"⟩) := by
  refine ⟨?_, ?_⟩
  · exact c10_video_length_conversion.1 ⟨some (.str "x"), some (.str "abc"), none⟩
      "id1" "u" [] "x"
      (.valueError "invalid literal for int() with base 10: \x27abc\x27") rfl rfl
  · exact c10_video_length_conversion.2 ⟨some (.str "x"), some (.int (-5)), none⟩
      "id1" "u" [] "x" (-5) rfl (by decide) rfl (by decide)
